import Mathlib

/-
  Verification of the scenario validation engine, the version-diff engine and
  the simulation trace formatter of the scenario-ide obsidian plugin
  (src/main.ts), against its natural-language specification.

  The plugin's core functions operate on values produced by a YAML parser
  (jsyaml.load), i.e. on dynamically typed JavaScript values.  We embed that
  value universe as the inductive type `JVal` (null, undefined, booleans,
  numbers, strings, arrays, objects with insertion-ordered string keys), give
  the JavaScript primitives the code uses (property access, optional
  chaining, truthiness, typeof, Array.isArray, the `in` operator,
  JSON.stringify, template-literal string conversion), and translate the
  three source functions line by line:
    - `validate`   : lines 131-156 of src/main.ts (validate-yaml-scenario);
    - `simpleDiff` : lines 231-245 of src/main.ts (compare-scenario-versions);
    - `simulate`   : lines 259-274 of src/main.ts (simulate-scenario).
  Property accesses that can raise a TypeError in JavaScript (reading a
  property of null/undefined, `in` on a primitive, calling forEach/map on a
  non-array) are modelled in the `Except JSErr` monad; everything else is
  total.  Numbers are modelled as integers: no claim depends on non-integral
  numerics.
-/

namespace IoTManager

/-- JavaScript runtime exceptions that the embedded code can raise
(TypeError from a property access on a nullish value, from the `in`
operator on a primitive, or from calling an array method on a non-array). -/
inductive JSErr where
  | typeError (msg : String)
deriving Repr, DecidableEq

/-- A parsed YAML / JavaScript value: the dynamic value universe on which
src/main.ts operates.  Objects keep their keys in insertion order, as
JavaScript objects (and jsyaml.load) do. -/
inductive JVal where
  | null
  | undefined
  | bool (b : Bool)
  | num (n : Int)
  | str (s : String)
  | arr (elems : List JVal)
  | obj (fields : List (String × JVal))

/-- Whether a value is null or undefined (the values on which property
access throws a TypeError in JavaScript). -/
def nullish : JVal → Bool
  | .null => true
  | .undefined => true
  | _ => false

/-- Negation of `nullish`. -/
def notNullish (v : JVal) : Bool := !(nullish v)

/-- First binding of a key in an object's field list; `undefined` when the
key is absent (JavaScript property lookup on a plain parsed object). -/
def lookupProp : List (String × JVal) → String → JVal
  | [], _ => .undefined
  | (k, v) :: rest, key => if k == key then v else lookupProp rest key

/-- Total core of property access: objects look the key up, every other
non-nullish value yields `undefined` (the source never reads built-in
properties such as `length` through this path). -/
def getPropD : JVal → String → JVal
  | .obj fields, k => lookupProp fields k
  | _, _ => .undefined

/-- JavaScript property access `v.k`: throws a TypeError on null/undefined,
otherwise `getPropD`. -/
def getProp (v : JVal) (k : String) : Except JSErr JVal :=
  if nullish v then .error (.typeError ("cannot read properties of nullish value (reading " ++ k ++ ")"))
  else .ok (getPropD v k)

/-- JavaScript optional chaining `v?.k`: `undefined` on null/undefined,
otherwise `getPropD` (never throws). -/
def optChainProp (v : JVal) (k : String) : JVal :=
  if nullish v then .undefined else getPropD v k

/-- JavaScript truthiness: null, undefined, false, 0 and the empty string
are falsy; arrays and objects (even empty ones) are truthy. -/
def truthy : JVal → Bool
  | .null => false
  | .undefined => false
  | .bool b => b
  | .num n => n != 0
  | .str s => s != ""
  | .arr _ => true
  | .obj _ => true

/-- JavaScript `typeof` as a string. -/
def jTypeof : JVal → String
  | .null => "object"
  | .undefined => "undefined"
  | .bool _ => "boolean"
  | .num _ => "number"
  | .str _ => "string"
  | .arr _ => "object"
  | .obj _ => "object"

/-- Whether `Array.isArray` holds. -/
def isArr : JVal → Bool
  | .arr _ => true
  | _ => false

/-- JavaScript `k in v`: key-presence on objects, false on arrays for the
non-index keys used by the source, and a TypeError on primitives and
nullish values. -/
def jIn (k : String) : JVal → Except JSErr Bool
  | .obj fields => .ok (fields.any (fun kv => kv.1 == k))
  | .arr _ => .ok false
  | v => .error (.typeError ("cannot use in operator on " ++ jTypeof v))

/-- Lowercase hexadecimal digit, for JSON control-character escapes. -/
def hexDigit (n : Nat) : Char :=
  if n < 10 then Char.ofNat (48 + n) else Char.ofNat (87 + n)

/-- JSON.stringify's escaping of a single character inside a string
literal. -/
def escapeJsonChar (c : Char) : String :=
  if c = '"' then "\\\""
  else if c = '\\' then "\\\\"
  else if c = '\n' then "\\n"
  else if c = '\r' then "\\r"
  else if c = '\t' then "\\t"
  else if c.toNat == 8 then "\\b"
  else if c.toNat == 12 then "\\f"
  else if c.toNat < 32 then
    "\\u00" ++ String.singleton (hexDigit (c.toNat / 16)) ++ String.singleton (hexDigit (c.toNat % 16))
  else String.singleton c

/-- JSON.stringify's rendering of a string, quotes included. -/
def quoteJsonString (s : String) : String :=
  "\"" ++ String.join (s.toList.map escapeJsonChar) ++ "\""

mutual

/-- JSON.stringify: `none` models the JavaScript result `undefined` (which
JSON.stringify returns for an `undefined` argument); inside arrays an
undefined element renders as `null`, inside objects an undefined-valued
field is dropped. -/
def stringifyJ : JVal → Option String
  | .null => some "null"
  | .undefined => none
  | .bool b => some (cond b "true" "false")
  | .num n => some (toString n)
  | .str s => some (quoteJsonString s)
  | .arr elems => some ("[" ++ String.intercalate "," (stringifyArr elems) ++ "]")
  | .obj fields => some ("\x7b" ++ String.intercalate "," (stringifyObj fields) ++ "\x7d")

/-- Renders each array element, `undefined` becoming `null`. -/
def stringifyArr : List JVal → List String
  | [] => []
  | x :: rest => (stringifyJ x).getD "null" :: stringifyArr rest

/-- Renders each object field as `"key":value`, dropping fields whose value
does not stringify. -/
def stringifyObj : List (String × JVal) → List String
  | [] => []
  | (k, v) :: rest =>
    match stringifyJ v with
    | none => stringifyObj rest
    | some sv => (quoteJsonString k ++ ":" ++ sv) :: stringifyObj rest

end

/-- Template-literal rendering of JSON.stringify's result: JavaScript turns
the `undefined` result into the string "undefined" when interpolated. -/
def jsonRender (v : JVal) : String := (stringifyJ v).getD "undefined"

mutual

/-- JavaScript String() conversion, as used by template literals:
arrays join their elements with commas (nullish elements becoming empty),
objects render as "[object Object]". -/
def jToString : JVal → String
  | .null => "null"
  | .undefined => "undefined"
  | .bool b => cond b "true" "false"
  | .num n => toString n
  | .str s => s
  | .arr elems => String.intercalate "," (jToStringArr elems)
  | .obj _ => "[object Object]"

/-- Array.prototype.toString element rendering: null and undefined become
the empty string. -/
def jToStringArr : List JVal → List String
  | [] => []
  | .null :: rest => "" :: jToStringArr rest
  | .undefined :: rest => "" :: jToStringArr rest
  | x :: rest => jToString x :: jToStringArr rest

end

/- ===================== SchemaValidator (src/main.ts 131-156) ============ -/

/-- Message shown when `data?.scenarios` is absent or not an array
(src/main.ts line 133). -/
def scenariosMissingMsg : String := "Invalid YAML: \"scenarios\" missing or not an array."

/-- Message emitted when a scenario's id fails checkField (src/main.ts
lines 136-138): the field prefix "Scenario i: id" followed by " invalid",
rendering as "Scenario i: id invalid". -/
def idInvalidMsg (i : Nat) : String := "Scenario " ++ toString i ++ ": id" ++ " invalid"

/-- Message emitted when a scenario's name fails checkField, rendering as
"Scenario i: name invalid". -/
def nameInvalidMsg (i : Nat) : String := "Scenario " ++ toString i ++ ": name" ++ " invalid"

/-- Message emitted when a scenario's triggers field is missing or not an
array (src/main.ts line 141). -/
def triggersMissingMsg (i : Nat) : String := "Scenario " ++ toString i ++ ": triggers missing or not an array"

/-- Message emitted when a trigger's type is falsy or not a string
(src/main.ts line 143). -/
def typeInvalidMsg (i j : Nat) : String := "Scenario " ++ toString i ++ ", Trigger " ++ toString j ++ ": type invalid"

/-- Message emitted when the key `value` is absent from a trigger's
`trigger` object (src/main.ts line 144). -/
def valueMissingMsg (i j : Nat) : String := "Scenario " ++ toString i ++ ", Trigger " ++ toString j ++ ": value missing"

/-- Message emitted when a scenario's steps field is missing or not an
array (src/main.ts line 146). -/
def stepsMissingMsg (i : Nat) : String := "Scenario " ++ toString i ++ ": steps missing or not an array"

/-- Message emitted when a step has an invalid structure
(src/main.ts line 148). -/
def stepInvalidMsg (i k : Nat) : String := "Scenario " ++ toString i ++ ", Step " ++ toString k ++ ": invalid structure"

/-- Line 136 of src/main.ts:
`const checkField = (field, value, type) => !value || typeof value !== type ? field + " invalid" : null`. -/
def checkField (field : String) (value : JVal) (ty : String) : Option String :=
  if !(truthy value) || jTypeof value != ty then some (field ++ " invalid") else none

/-- Lines 137-140 of src/main.ts: the id and name checks of scenario `i`;
the two checkField results are filtered by Boolean and pushed.  Reading
`s.id` / `s.name` throws when the scenario value is nullish. -/
def scenarioIdNameErrors (i : Nat) (s : JVal) : Except JSErr (List String) := do
  let idv ← getProp s "id"
  let namev ← getProp s "name"
  .ok (([checkField ("Scenario " ++ toString i ++ ": id") idv "string",
         checkField ("Scenario " ++ toString i ++ ": name") namev "string"]).filterMap id)

/-- Lines 143-144 of src/main.ts, for the trigger at index `j` of scenario
`i`: the type check `!t.trigger?.type || typeof t.trigger.type !== 'string'`
followed by the presence check `!('value' in t.trigger)`.  Reading
`t.trigger` throws on a nullish trigger entry, and the `in` operator throws
when `t.trigger` is a primitive or nullish. -/
def validateTrigger (i j : Nat) (t : JVal) : Except JSErr (List String) := do
  let trig ← getProp t "trigger"
  let typeErrs ←
    if !(truthy (optChainProp trig "type")) then Except.ok [typeInvalidMsg i j]
    else do
      let trig2 ← getProp t "trigger"
      let ty ← getProp trig2 "type"
      Except.ok (if jTypeof ty != "string" then [typeInvalidMsg i j] else [])
  let hasValue ← jIn "value" trig
  .ok (typeErrs ++ (if !hasValue then [valueMissingMsg i j] else []))

/-- The forEach over a scenario's triggers (line 142 of src/main.ts),
starting at trigger index `j`. -/
def validateTriggers (i : Nat) : Nat → List JVal → Except JSErr (List String)
  | _, [] => .ok []
  | j, t :: rest => do
    let es ← validateTrigger i j t
    let more ← validateTriggers i (j + 1) rest
    .ok (es ++ more)

/-- Lines 141-145 of src/main.ts: if `s.triggers` is falsy or not an array
push the triggers-missing message, otherwise run the trigger loop.  An
array is always truthy, so the two JavaScript tests collapse to a single
match on the array constructor. -/
def scenarioTriggerErrors (i : Nat) (s : JVal) : Except JSErr (List String) := do
  let tr ← getProp s "triggers"
  match tr with
  | .arr ts => validateTriggers i 0 ts
  | _ => .ok [triggersMissingMsg i]

/-- Line 148 of src/main.ts, for the step at index `k` of scenario `i`:
`!st.type || !st.parameters?.items || !Array.isArray(st.parameters.items)`,
with JavaScript's left-to-right short-circuit evaluation. -/
def validateStep (i k : Nat) (st : JVal) : Except JSErr (List String) := do
  let ty ← getProp st "type"
  if !(truthy ty) then .ok [stepInvalidMsg i k]
  else do
    let params ← getProp st "parameters"
    if !(truthy (optChainProp params "items")) then .ok [stepInvalidMsg i k]
    else do
      let params2 ← getProp st "parameters"
      let items ← getProp params2 "items"
      .ok (if !(isArr items) then [stepInvalidMsg i k] else [])

/-- The forEach over a scenario's steps (line 147 of src/main.ts), starting
at step index `k`. -/
def validateSteps (i : Nat) : Nat → List JVal → Except JSErr (List String)
  | _, [] => .ok []
  | k, st :: rest => do
    let es ← validateStep i k st
    let more ← validateSteps i (k + 1) rest
    .ok (es ++ more)

/-- Lines 146-149 of src/main.ts: the steps-missing check, collapsing
truthiness plus Array.isArray into a match as for triggers. -/
def scenarioStepErrors (i : Nat) (s : JVal) : Except JSErr (List String) := do
  let sts ← getProp s "steps"
  match sts with
  | .arr ss => validateSteps i 0 ss
  | _ => .ok [stepsMissingMsg i]

/-- Lines 135-150 of src/main.ts, one iteration of the scenario forEach:
id and name checks, then trigger checks, then step checks, pushed onto the
shared errors array in that order. -/
def validateScenario (i : Nat) (s : JVal) : Except JSErr (List String) := do
  let idName ← scenarioIdNameErrors i s
  let trig ← scenarioTriggerErrors i s
  let steps ← scenarioStepErrors i s
  .ok (idName ++ trig ++ steps)

/-- The forEach over data.scenarios (line 135 of src/main.ts), starting at
scenario index `i`. -/
def validateScenarios : Nat → List JVal → Except JSErr (List String)
  | _, [] => .ok []
  | i, s :: rest => do
    let es ← validateScenario i s
    let more ← validateScenarios (i + 1) rest
    .ok (es ++ more)

/-- Lines 132-151 of src/main.ts, the SchemaValidator: if
`!data?.scenarios || !Array.isArray(data.scenarios)` the single
scenarios-missing message is reported and nothing else runs (an array is
always truthy, so the two tests collapse to a match on the array
constructor); otherwise the scenario loop accumulates every error.  The
command's surrounding try/catch is the orchestration layer and is not part
of the validator: a thrown TypeError surfaces as `Except.error`. -/
def validate (data : JVal) : Except JSErr (List String) :=
  match optChainProp data "scenarios" with
  | .arr xs => validateScenarios 0 xs
  | _ => .ok [scenariosMissingMsg]

/- ===================== StructuralDiffer (src/main.ts 231-245) =========== -/

/-- Lines 233-237 of src/main.ts:
`if (JSON.stringify(a) !== JSON.stringify(b)) changes.push(path + ": " + JSON.stringify(b) + " → " + JSON.stringify(a))`.
Returns the pushed change lines (zero or one). -/
def compareVals (a b : JVal) (path : String) : List String :=
  if stringifyJ a ≠ stringifyJ b then [path ++ ": " ++ jsonRender b ++ " → " ++ jsonRender a] else []

/-- Total core of JavaScript index access `v[i]`: arrays yield the element
or `undefined` out of range, objects look the index up as a string key,
strings yield the one-character string at that position, other primitives
yield `undefined`. -/
def getIdxD : JVal → Nat → JVal
  | .arr elems, i => elems.getD i .undefined
  | .obj fields, i => lookupProp fields (toString i)
  | .str s, i =>
    match s.toList.get? i with
    | some c => .str (String.singleton c)
    | none => .undefined
  | _, _ => .undefined

/-- JavaScript index access `v[i]`: throws a TypeError on null/undefined,
otherwise `getIdxD`. -/
def getIdx (v : JVal) (i : Nat) : Except JSErr JVal :=
  if nullish v then .error (.typeError "cannot read indexed property of nullish value")
  else .ok (getIdxD v i)

/-- Lines 238-243 of src/main.ts, one iteration of the scenario forEach in
simpleDiff: `const v = version.scenarios[i] || {}` followed by the three
field comparisons, in source order (name, triggers, steps). -/
def diffScenario (version : JVal) (i : Nat) (s : JVal) : Except JSErr (List String) := do
  let vsc ← getProp version "scenarios"
  let vi ← getIdx vsc i
  let v := if truthy vi then vi else JVal.obj []
  let sName ← getProp s "name"
  let vName ← getProp v "name"
  let sTrig ← getProp s "triggers"
  let vTrig ← getProp v "triggers"
  let sSteps ← getProp s "steps"
  let vSteps ← getProp v "steps"
  .ok (compareVals sName vName ("Scenario " ++ toString i ++ ".name")
    ++ compareVals sTrig vTrig ("Scenario " ++ toString i ++ ".triggers")
    ++ compareVals sSteps vSteps ("Scenario " ++ toString i ++ ".steps"))

/-- The forEach over current.scenarios (line 238 of src/main.ts), starting
at scenario index `i`. -/
def diffScenarios (version : JVal) : Nat → List JVal → Except JSErr (List String)
  | _, [] => .ok []
  | i, s :: rest => do
    let cs ← diffScenario version i s
    let more ← diffScenarios version (i + 1) rest
    .ok (cs ++ more)

/-- Lines 231-245 of src/main.ts, the StructuralDiffer simpleDiff: iterate
current.scenarios (calling forEach on a non-array — including undefined —
throws a TypeError), then join the changes with newlines, or return the
sentinel when no change was pushed. -/
def simpleDiff (current version : JVal) : Except JSErr String := do
  let csc ← getProp current "scenarios"
  match csc with
  | .arr xs => do
    let changes ← diffScenarios version 0 xs
    .ok (if changes.isEmpty then "No differences found." else String.intercalate "\n" changes)
  | v => .error (.typeError ("forEach is not a function on " ++ jTypeof v))

/- ===================== Simulation formatter (src/main.ts 259-274) ======= -/

/-- Result of the simulate-scenario command after YAML parsing: either the
early "No scenarios to simulate." notice or the trace lines. -/
inductive SimResult where
  | noScenarios
  | trace (lines : List String)
deriving Repr, DecidableEq

/-- JavaScript `v?.length`: nullish yields undefined; arrays and strings
expose their length; objects may carry an explicit length field. -/
def optChainLength : JVal → JVal
  | .null => .undefined
  | .undefined => .undefined
  | .arr elems => .num elems.length
  | .str s => .num s.length
  | .obj fields => lookupProp fields "length"
  | _ => .undefined

/-- Lines 264-267 of src/main.ts, one trigger line of the simulation trace:
`const value = typeof t.trigger.value === 'string' ? t.trigger.value : JSON.stringify(t.trigger.value)`
then `  Trigger j: type -> value` via template literal. -/
def simulateTrigger (j : Nat) (t : JVal) : Except JSErr String := do
  let trig ← getProp t "trigger"
  let tv ← getProp trig "value"
  let value := if jTypeof tv == "string" then jToString tv else jsonRender tv
  let trig2 ← getProp t "trigger"
  let ty ← getProp trig2 "type"
  .ok ("  Trigger " ++ toString j ++ ": " ++ jToString ty ++ " -> " ++ value)

/-- The forEach over a scenario's triggers in the simulator (line 264). -/
def simulateTriggers : Nat → List JVal → Except JSErr (List String)
  | _, [] => .ok []
  | j, t :: rest => do
    let line ← simulateTrigger j t
    let more ← simulateTriggers (j + 1) rest
    .ok (line :: more)

/-- One item of a step's parameters, rendered as `type (id)`
(line 269 of src/main.ts). -/
def simulateItem (it : JVal) : Except JSErr String := do
  let ty ← getProp it "type"
  let idv ← getProp it "id"
  .ok (jToString ty ++ " (" ++ jToString idv ++ ")")

/-- The map over a step's items (line 269 of src/main.ts). -/
def simulateItems : List JVal → Except JSErr (List String)
  | [] => .ok []
  | it :: rest => do
    let s ← simulateItem it
    let more ← simulateItems rest
    .ok (s :: more)

/-- Lines 268-271 of src/main.ts, one step line of the simulation trace:
`st.parameters.items.map(...).join(', ')` (calling map on a non-array
throws), then `  Step k: type -> items || 'No actions'`. -/
def simulateStep (k : Nat) (st : JVal) : Except JSErr String := do
  let params ← getProp st "parameters"
  let itemsV ← getProp params "items"
  match itemsV with
  | .arr its => do
    let rendered ← simulateItems its
    let items := String.intercalate ", " rendered
    let ty ← getProp st "type"
    .ok ("  Step " ++ toString k ++ ": " ++ jToString ty ++ " -> " ++ (if items.isEmpty then "No actions" else items))
  | v => .error (.typeError ("map is not a function on " ++ jTypeof v))

/-- The forEach over a scenario's steps in the simulator (line 268). -/
def simulateSteps : Nat → List JVal → Except JSErr (List String)
  | _, [] => .ok []
  | k, st :: rest => do
    let line ← simulateStep k st
    let more ← simulateSteps (k + 1) rest
    .ok (line :: more)

/-- Lines 262-272 of src/main.ts, one iteration of the scenario forEach in
the simulator: the header line, then the trigger lines (forEach on a
non-array `s.triggers` throws), then the step lines. -/
def simulateScenario (i : Nat) (s : JVal) : Except JSErr (List String) := do
  let nm ← getProp s "name"
  let header := "Scenario " ++ toString i ++ ": " ++ jToString nm
  let trs ← getProp s "triggers"
  match trs with
  | .arr ts => do
    let tLines ← simulateTriggers 0 ts
    let sts ← getProp s "steps"
    match sts with
    | .arr ss => do
      let sLines ← simulateSteps 0 ss
      .ok (header :: (tLines ++ sLines))
    | v => .error (.typeError ("forEach is not a function on " ++ jTypeof v))
  | v => .error (.typeError ("forEach is not a function on " ++ jTypeof v))

/-- The forEach over data.scenarios in the simulator (line 262). -/
def simulateScenarios : Nat → List JVal → Except JSErr (List String)
  | _, [] => .ok []
  | i, s :: rest => do
    let lines ← simulateScenario i s
    let more ← simulateScenarios (i + 1) rest
    .ok (lines ++ more)

/-- Lines 259-274 of src/main.ts, the simulation trace formatter: the guard
`if (!data?.scenarios?.length) return Notice('No scenarios to simulate.')`
followed by the scenario forEach.  Unlike the validator's command, there is
no try/catch around this body, so a TypeError propagates. -/
def simulate (data : JVal) : Except JSErr SimResult :=
  if !(truthy (optChainLength (optChainProp data "scenarios"))) then .ok .noScenarios
  else do
    let sc ← getProp data "scenarios"
    match sc with
    | .arr xs => do
      let lines ← simulateScenarios 0 xs
      .ok (.trace lines)
    | v => .error (.typeError ("forEach is not a function on " ++ jTypeof v))

/- ===================== Helper lemmas =================================== -/

instance {ε α : Type} [DecidableEq ε] [DecidableEq α] : DecidableEq (Except ε α)
  | .ok a, .ok b =>
    if h : a = b then .isTrue (by rw [h]) else .isFalse (by intro c; cases c; exact h rfl)
  | .ok _, .error _ => .isFalse (by intro c; cases c)
  | .error _, .ok _ => .isFalse (by intro c; cases c)
  | .error e, .error e' =>
    if h : e = e' then .isTrue (by rw [h]) else .isFalse (by intro c; cases c; exact h rfl)

/-- Whether an Except-valued computation raised (the JavaScript code threw). -/
def isThrow {α : Type} : Except JSErr α → Bool
  | .error _ => true
  | .ok _ => false

lemma okBind {α β : Type} (a : α) (f : α → Except JSErr β) : (Except.ok a >>= f) = f a := rfl

lemma nullish_eq_false {v : JVal} (h : notNullish v = true) : nullish v = false := by
  unfold notNullish at h; simpa using h

lemma getProp_ok {v : JVal} (k : String) (h : notNullish v = true) :
    getProp v k = .ok (getPropD v k) := by
  unfold getProp; rw [nullish_eq_false h]; rfl

lemma optChainProp_eq {v : JVal} (k : String) (h : notNullish v = true) :
    optChainProp v k = getPropD v k := by
  unfold optChainProp; rw [nullish_eq_false h]; rfl

lemma getIdx_ok {v : JVal} (i : Nat) (h : notNullish v = true) :
    getIdx v i = .ok (getIdxD v i) := by
  unfold getIdx; rw [nullish_eq_false h]; rfl

lemma notNullish_of_truthy {v : JVal} (h : truthy v = true) : notNullish v = true := by
  cases v <;> simp_all [truthy, notNullish, nullish]

/-- A falsy but non-nullish value (false, 0 or "") is a primitive, so every
property read on it yields undefined. -/
lemma getPropD_falsy {v : JVal} (k : String) (hf : truthy v = false)
    (hnn : notNullish v = true) : getPropD v k = .undefined := by
  cases v <;> simp_all [truthy, notNullish, nullish, getPropD]

lemma mem_of_mem_enumFrom {α : Type} {p : Nat × α} :
    ∀ {l : List α} {n : Nat}, p ∈ l.enumFrom n → p.2 ∈ l := by
  intro l
  induction l with
  | nil => intro n h; simp [List.enumFrom] at h
  | cons x xs ih =>
    intro n h
    simp only [List.enumFrom, List.mem_cons] at h
    rcases h with h | h
    · simp [h]
    · exact List.mem_cons_of_mem _ (ih h)

lemma getD_of_mem_enumFrom {α : Type} (d : α) {p : Nat × α} :
    ∀ {l : List α} {n : Nat}, p ∈ l.enumFrom n → ∃ r, p.1 = n + r ∧ l.getD r d = p.2 := by
  intro l
  induction l with
  | nil => intro n h; simp [List.enumFrom] at h
  | cons x xs ih =>
    intro n h
    simp only [List.enumFrom, List.mem_cons] at h
    rcases h with h | h
    · exact ⟨0, by simp [h], by simp [h]⟩
    · rcases ih h with ⟨r, hr, hget⟩
      exact ⟨r + 1, by omega, by simpa [List.getD] using hget⟩

/-- Dropping `i` elements leaves `x :: rest` exactly when position `i`
holds `x` and dropping `i + 1` leaves `rest`. -/
lemma drop_cons_getD {α : Type} (d : α) :
    ∀ (l : List α) (i : Nat) (x : α) (rest : List α), l.drop i = x :: rest →
      l.getD i d = x ∧ l.drop (i + 1) = rest := by
  intro l
  induction l with
  | nil => intro i x rest h; simp at h
  | cons y ys ih =>
    intro i x rest h
    cases i with
    | zero => simp_all
    | succ i' =>
      simp only [List.drop_succ_cons] at h
      have := ih i' x rest h
      simpa [List.getD] using this

/- ===================== Message disjointness ============================ -/

lemma idInvalidMsg_ne_nameInvalidMsg (i : Nat) : idInvalidMsg i ≠ nameInvalidMsg i := by
  intro h
  have hlen := congrArg String.length h
  simp only [idInvalidMsg, nameInvalidMsg, String.length_append] at hlen
  have h1 : (": id" : String).length = 4 := rfl
  have h2 : (": name" : String).length = 6 := rfl
  rw [h1, h2] at hlen
  omega

lemma typeInvalidMsg_ne_valueMissingMsg (i j : Nat) : typeInvalidMsg i j ≠ valueMissingMsg i j := by
  intro h
  have hlen := congrArg String.length h
  simp only [typeInvalidMsg, valueMissingMsg, String.length_append] at hlen
  have h1 : (": type invalid" : String).length = 14 := rfl
  have h2 : (": value missing" : String).length = 15 := rfl
  rw [h1, h2] at hlen
  omega

/- ===================== Claim C5 ======================================== -/

/-- C5: for every input document whose `scenarios` key is absent or not a
sequence (the optional-chained read `data?.scenarios` yields anything but
an array, covering a missing key, a wrong-typed value and a non-object or
null document), validate returns exactly one error, that error is the
scenarios-missing message, and no scenario-level check runs. -/
theorem C5_scenarios_missing (d : JVal) (h : isArr (optChainProp d "scenarios") = false) :
    validate d = .ok [scenariosMissingMsg] := by
  unfold validate
  split
  · rename_i xs heq
    rw [heq] at h
    simp [isArr] at h
  · rfl

/-- Witness for C5: a document without the `scenarios` key. -/
theorem C5_scenarios_missing_witness :
    isArr (optChainProp (JVal.obj []) "scenarios") = false ∧
    validate (JVal.obj []) = .ok [scenariosMissingMsg] :=
  ⟨rfl, C5_scenarios_missing (JVal.obj []) rfl⟩

/- ===================== Claim C2 ======================================== -/

lemma valueMissing_mem_append (i j : Nat) (e1 : List String)
    (he1 : e1 = [] ∨ e1 = [typeInvalidMsg i j]) (b : Bool) :
    (valueMissingMsg i j ∈ e1 ++ (if !b then [valueMissingMsg i j] else []) ↔ b = false) := by
  rcases he1 with h | h <;> subst h <;> cases b <;>
    simp [Ne.symm (typeInvalidMsg_ne_valueMissingMsg i j)]

/-- C2: for every pair of indices i, j and every trigger entry t whose
`trigger` field is the mapping m, the trigger check of the validator
returns normally and emits "Scenario i, Trigger j: value missing" if and
only if the key `value` is absent from m.  Presence with any value
whatsoever — null, the empty string, 0 — suppresses the error: the check
is a key-presence check, not a truthiness check. -/
theorem C2_value_presence (i j : Nat) (t : JVal) (m : List (String × JVal))
    (hnn : notNullish t = true) (hm : getPropD t "trigger" = .obj m) :
    ∃ es, validateTrigger i j t = .ok es ∧
      (valueMissingMsg i j ∈ es ↔ (m.any fun kv => kv.1 == "value") = false) := by
  have hg : getProp t "trigger" = .ok (.obj m) := by rw [getProp_ok _ hnn, hm]
  unfold validateTrigger
  rw [hg]
  simp only [okBind, hg, getProp, nullish, jIn, Bool.false_eq_true, if_false]
  by_cases hty : truthy (optChainProp (JVal.obj m) "type") = true
  · rw [hty]
    simp only [Bool.not_true, Bool.false_eq_true, if_false, okBind]
    refine ⟨_, rfl, valueMissing_mem_append i j _ ?_ _⟩
    split <;> simp
  · rw [Bool.not_eq_true] at hty
    rw [hty]
    simp only [Bool.not_false, if_true, okBind]
    exact ⟨_, rfl, valueMissing_mem_append i j _ (Or.inr rfl) _⟩

/-- Witness for C2: a trigger whose `trigger` mapping has a type but no
`value` key; the value-missing error is emitted. -/
theorem C2_value_presence_witness :
    ∃ es, validateTrigger 0 0 (JVal.obj [("trigger", JVal.obj [("type", JVal.str "t")])]) = .ok es ∧
      (valueMissingMsg 0 0 ∈ es ↔
        (([("type", JVal.str "t")] : List (String × JVal)).any fun kv => kv.1 == "value") = false) :=
  C2_value_presence 0 0 _ [("type", JVal.str "t")] rfl rfl

/- ===================== Claim C3 ======================================== -/

/-- Characterization of the values checkField accepts for type "string":
present, a string, and non-empty (truthiness of a string is
non-emptiness). -/
def nonEmptyString : JVal → Bool
  | .str s => s != ""
  | _ => false

lemma checkField_string_eq (f : String) (v : JVal) :
    checkField f v "string" = if nonEmptyString v then none else some (f ++ " invalid") := by
  cases v <;> simp [checkField, nonEmptyString, truthy, jTypeof]

/-- C3 (amended): for every scenario at index i (a non-nullish value), the
id and name checks return normally, "Scenario i: id invalid" is emitted if
and only if the scenario's `id` is absent, not a string, or the EMPTY
string, and likewise for `name`; a scenario whose id and name are present
non-empty strings produces neither error.  (The original claim exempted
the empty string; checkField's truthiness test rejects it.) -/
theorem C3_id_name_checks (i : Nat) (s : JVal) (hnn : notNullish s = true) :
    ∃ es, scenarioIdNameErrors i s = .ok es ∧
      (idInvalidMsg i ∈ es ↔ nonEmptyString (getPropD s "id") = false) ∧
      (nameInvalidMsg i ∈ es ↔ nonEmptyString (getPropD s "name") = false) := by
  unfold scenarioIdNameErrors
  rw [getProp_ok "id" hnn, getProp_ok "name" hnn]
  simp only [okBind, checkField_string_eq]
  have hne : ("Scenario " ++ toString i ++ ": id" ++ " invalid" : String) ≠
      "Scenario " ++ toString i ++ ": name" ++ " invalid" := idInvalidMsg_ne_nameInvalidMsg i
  refine ⟨_, rfl, ?_, ?_⟩ <;>
    by_cases h1 : nonEmptyString (getPropD s "id") = true <;>
    by_cases h2 : nonEmptyString (getPropD s "name") = true <;>
    simp_all [idInvalidMsg, nameInvalidMsg, hne, Ne.symm hne]

/-- Witness for C3 (amended): a scenario with a non-empty id and an absent
name emits exactly the name error. -/
theorem C3_id_name_checks_witness :
    ∃ es, scenarioIdNameErrors 0 (JVal.obj [("id", JVal.str "a")]) = .ok es ∧
      (idInvalidMsg 0 ∈ es ↔ nonEmptyString (getPropD (JVal.obj [("id", JVal.str "a")]) "id") = false) ∧
      (nameInvalidMsg 0 ∈ es ↔ nonEmptyString (getPropD (JVal.obj [("id", JVal.str "a")]) "name") = false) :=
  C3_id_name_checks 0 (JVal.obj [("id", JVal.str "a")]) rfl

/-- Document with one scenario whose id is the empty string and whose
other fields are valid. -/
def exC3 : JVal :=
  .obj [("scenarios", .arr [.obj [("id", .str ""), ("name", .str "x"),
    ("triggers", .arr []), ("steps", .arr [])]])]

/-- Counterexample to C3 as stated: the claim says a scenario whose id and
name are present strings INCLUDING the empty string produces neither
error, but on a scenario with id "" (and valid name, triggers, steps) the
validator emits "Scenario 0: id invalid": checkField's `!value` truthiness
test rejects the empty string. -/
theorem C3_empty_string_counterexample :
    validate exC3 = .ok ["Scenario 0: id invalid"] := by decide

/- ===================== Claim C4 ======================================== -/

lemma errBind {α β : Type} (e : JSErr) (f : α → Except JSErr β) :
    ((Except.error e : Except JSErr α) >>= f) = .error e := rfl

lemma validateScenarios_flatten (f : Nat → JVal → List String) :
    ∀ (xs : List JVal) (i : Nat),
      (∀ p ∈ xs.enumFrom i, validateScenario p.1 p.2 = .ok (f p.1 p.2)) →
      validateScenarios i xs = .ok (((xs.enumFrom i).map fun p => f p.1 p.2).flatten) := by
  intro xs
  induction xs with
  | nil => intro i _; rfl
  | cons s rest ih =>
    intro i h
    have hs : validateScenario i s = .ok (f i s) := h (i, s) (by simp [List.enumFrom])
    have hrest := ih (i + 1) (fun p hp => h p (by simp [List.enumFrom, hp]))
    unfold validateScenarios
    rw [hs]
    simp only [okBind]
    rw [hrest]
    simp [List.enumFrom, okBind]

/-- C4: for every document whose `scenarios` field is an array, the
validator visits EVERY scenario (it never stops at the first error): given
that each scenario's checks return normally with error block f i s, the
result is the concatenation of all blocks in document order, and each
block decomposes as the id/name errors, then the trigger errors, then the
step errors, in that order. -/
theorem C4_accumulation_order (d : JVal) (xs : List JVal) (f : Nat → JVal → List String)
    (hnn : notNullish d = true) (hsc : getPropD d "scenarios" = .arr xs)
    (hok : ∀ p ∈ xs.enumFrom 0, validateScenario p.1 p.2 = .ok (f p.1 p.2)) :
    validate d = .ok (((xs.enumFrom 0).map fun p => f p.1 p.2).flatten) ∧
    ∀ p ∈ xs.enumFrom 0, ∃ a b c, scenarioIdNameErrors p.1 p.2 = .ok a ∧
      scenarioTriggerErrors p.1 p.2 = .ok b ∧ scenarioStepErrors p.1 p.2 = .ok c ∧
      f p.1 p.2 = a ++ b ++ c := by
  constructor
  · unfold validate
    rw [optChainProp_eq _ hnn, hsc]
    exact validateScenarios_flatten f xs 0 hok
  · intro p hp
    have h := hok p hp
    unfold validateScenario at h
    cases ha : scenarioIdNameErrors p.1 p.2 with
    | error e => rw [ha, errBind] at h; simp at h
    | ok a =>
      rw [ha] at h
      simp only [okBind] at h
      cases hb : scenarioTriggerErrors p.1 p.2 with
      | error e => rw [hb, errBind] at h; simp at h
      | ok b =>
        rw [hb] at h
        simp only [okBind] at h
        cases hc : scenarioStepErrors p.1 p.2 with
        | error e => rw [hc, errBind] at h; simp at h
        | ok c =>
          rw [hc] at h
          simp only [okBind] at h
          exact ⟨a, b, c, rfl, rfl, rfl, by injection h with h'; exact h'.symm⟩

/-- Document with two scenarios, each carrying exactly one invalid field
(a numeric id in the first, a missing name in the second). -/
def exC4 : JVal :=
  .obj [("scenarios", .arr [
    .obj [("id", .num 5), ("name", .str "a"), ("triggers", .arr []), ("steps", .arr [])],
    .obj [("id", .str "b"), ("triggers", .arr []), ("steps", .arr [])]])]

/-- Witness for C4: both violations are reported, one per scenario, in
document order. -/
theorem C4_accumulation_order_witness :
    validate exC4 = .ok ["Scenario 0: id invalid", "Scenario 1: name invalid"] := by
  have h := C4_accumulation_order exC4
    [.obj [("id", .num 5), ("name", .str "a"), ("triggers", .arr []), ("steps", .arr [])],
     .obj [("id", .str "b"), ("triggers", .arr []), ("steps", .arr [])]]
    (fun i _ => if i = 0 then ["Scenario 0: id" ++ " invalid"] else ["Scenario 1: name" ++ " invalid"])
    rfl rfl (by decide)
  rw [h.1]
  decide

/- ===================== Differ evaluation infrastructure ================ -/

/-- The `|| {}` normalization applied to `version.scenarios[i]` on line 239
of src/main.ts: a falsy value is replaced by an empty object. -/
def norm1 (w : JVal) : JVal := if truthy w then w else .obj []

/-- The change lines one simpleDiff iteration produces, as a total
function of the inputs (equal to `diffScenario` whenever no property read
throws). -/
def diffScenarioPure (version : JVal) (i : Nat) (s : JVal) : List String :=
  let v := norm1 (getIdxD (getPropD version "scenarios") i)
  compareVals (getPropD s "name") (getPropD v "name") ("Scenario " ++ toString i ++ ".name")
    ++ compareVals (getPropD s "triggers") (getPropD v "triggers") ("Scenario " ++ toString i ++ ".triggers")
    ++ compareVals (getPropD s "steps") (getPropD v "steps") ("Scenario " ++ toString i ++ ".steps")

lemma diffScenario_eq_pure (version : JVal) (i : Nat) (s : JVal)
    (hs : notNullish s = true) (hv : notNullish version = true)
    (hvsc : notNullish (getPropD version "scenarios") = true) :
    diffScenario version i s = .ok (diffScenarioPure version i s) := by
  have h1 := nullish_eq_false hv
  have h2 := nullish_eq_false hs
  have h3 := nullish_eq_false hvsc
  unfold diffScenario diffScenarioPure norm1
  cases htr : truthy (getIdxD (getPropD version "scenarios") i) with
  | true =>
    have h4 := nullish_eq_false (notNullish_of_truthy htr)
    simp [getProp, getIdx, h1, h2, h3, h4, htr, okBind]
  | false =>
    have h4 : nullish (JVal.obj []) = false := rfl
    simp [getProp, getIdx, h1, h2, h3, h4, htr, okBind]

lemma diffScenarios_flatten (version : JVal) (hv : notNullish version = true)
    (hvsc : notNullish (getPropD version "scenarios") = true) :
    ∀ (xs : List JVal) (i : Nat), (∀ p ∈ xs.enumFrom i, notNullish p.2 = true) →
      diffScenarios version i xs =
        .ok (((xs.enumFrom i).map fun p => diffScenarioPure version p.1 p.2).flatten) := by
  intro xs
  induction xs with
  | nil => intro i _; rfl
  | cons s rest ih =>
    intro i h
    have hs : notNullish s = true := h (i, s) (by simp [List.enumFrom])
    have hrest := ih (i + 1) (fun p hp => h p (by simp [List.enumFrom, hp]))
    unfold diffScenarios
    rw [diffScenario_eq_pure version i s hs hv hvsc]
    simp only [okBind]
    rw [hrest]
    simp [List.enumFrom, okBind]

lemma simpleDiff_pure (current version : JVal) (xs : List JVal)
    (hc : notNullish current = true) (hsc : getPropD current "scenarios" = .arr xs)
    (hv : notNullish version = true) (hvsc : notNullish (getPropD version "scenarios") = true)
    (hall : ∀ p ∈ xs.enumFrom 0, notNullish p.2 = true) :
    simpleDiff current version = .ok (
      if (((xs.enumFrom 0).map fun p => diffScenarioPure version p.1 p.2).flatten).isEmpty
      then "No differences found."
      else String.intercalate "\n" (((xs.enumFrom 0).map fun p => diffScenarioPure version p.1 p.2).flatten)) := by
  unfold simpleDiff
  rw [getProp_ok _ hc, hsc]
  simp only [okBind]
  rw [diffScenarios_flatten version hv hvsc xs 0 hall]
  rfl

lemma all_notNullish_mem {xs : List JVal} (h : xs.all notNullish = true) {v : JVal}
    (hv : v ∈ xs) : notNullish v = true := by
  rw [List.all_eq_true] at h
  exact h v hv

lemma flatten_of_all_nil {α : Type} :
    ∀ {l : List (List α)}, (∀ x ∈ l, x = []) → l.flatten = [] := by
  intro l
  induction l with
  | nil => intro _; rfl
  | cons x rest ih =>
    intro h
    have hx : x = [] := h x (by simp)
    have := ih (fun y hy => h y (by simp [hy]))
    simp [hx, this]

/- ===================== Claim C6 ======================================== -/

/-- C6: for every scenario document A whose `scenarios` is a sequence of
(non-nullish) scenario values, diff(A, A) returns exactly the sentinel
"No differences found." and no change lines: every field compares equal
to itself under JSON serialization, and a falsy scenario entry still
agrees with the `|| {}` substitute since both read every property as
undefined. -/
theorem C6_diff_self (d : JVal) (xs : List JVal)
    (hd : notNullish d = true) (hsc : getPropD d "scenarios" = .arr xs)
    (hall : xs.all notNullish = true) :
    simpleDiff d d = .ok "No differences found." := by
  have hvsc : notNullish (getPropD d "scenarios") = true := by rw [hsc]; rfl
  have hall' : ∀ p ∈ xs.enumFrom 0, notNullish p.2 = true :=
    fun p hp => all_notNullish_mem hall (mem_of_mem_enumFrom hp)
  rw [simpleDiff_pure d d xs hd hsc hd hvsc hall']
  have hzero : ∀ p ∈ xs.enumFrom 0, diffScenarioPure d p.1 p.2 = [] := by
    intro p hp
    obtain ⟨r, hr, hget⟩ := getD_of_mem_enumFrom JVal.undefined hp
    have hp1 : p.1 = r := by omega
    have hidx : getIdxD (getPropD d "scenarios") p.1 = p.2 := by
      rw [hsc, hp1]
      exact hget
    have hnp := hall' p hp
    unfold diffScenarioPure norm1
    rw [hidx]
    cases htr : truthy p.2 with
    | true => simp [htr, compareVals]
    | false =>
      have hforall : ∀ k, getPropD p.2 k = JVal.undefined := fun k => getPropD_falsy k htr hnp
      have hempty : ∀ k, getPropD (JVal.obj []) k = JVal.undefined := fun _ => rfl
      simp [htr, compareVals, hforall, hempty]
  have hflat := flatten_of_all_nil (l := (xs.enumFrom 0).map fun p => diffScenarioPure d p.1 p.2)
    (by intro x hx
        obtain ⟨p, hp, hpx⟩ := List.mem_map.mp hx
        rw [← hpx]
        exact hzero p hp)
  simp [hflat]

/-- Document with one fully populated scenario, used by the C6 witness. -/
def exC6 : JVal :=
  .obj [("scenarios", .arr [.obj [("id", .str "a"), ("name", .str "n"),
    ("triggers", .arr [.obj [("trigger", .obj [("type", .str "t"), ("value", .str "v")])]]),
    ("steps", .arr [.obj [("type", .str "s"), ("parameters", .obj [("items", .arr [])])]])]])]

/-- Witness for C6 at a concrete document. -/
theorem C6_diff_self_witness : simpleDiff exC6 exC6 = .ok "No differences found." :=
  C6_diff_self exC6
    [.obj [("id", .str "a"), ("name", .str "n"),
      ("triggers", .arr [.obj [("trigger", .obj [("type", .str "t"), ("value", .str "v")])]]),
      ("steps", .arr [.obj [("type", .str "s"), ("parameters", .obj [("items", .arr [])])]])]]
    rfl rfl (by decide)

/- ===================== Claim C7 ======================================== -/

/-- C7: the differ only looks at `name`, `triggers` and `steps` at the
indices of `current.scenarios`: whenever the two documents agree (under
JSON serialization) on those three fields at every index of
current.scenarios — with `previous.scenarios[i] || {}` as the compared
object — diff returns "No differences found.", no matter how the
documents differ on `id`, `icon`, `devices`, other extension fields, or
on extra trailing scenarios of `previous`. -/
theorem C7_frame (cur ver : JVal) (xs : List JVal)
    (hc : notNullish cur = true) (hv : notNullish ver = true)
    (hsc : getPropD cur "scenarios" = .arr xs)
    (hvsc : notNullish (getPropD ver "scenarios") = true)
    (hall : xs.all notNullish = true)
    (hagree : ∀ p ∈ xs.enumFrom 0,
      stringifyJ (getPropD p.2 "name") =
        stringifyJ (getPropD (norm1 (getIdxD (getPropD ver "scenarios") p.1)) "name") ∧
      stringifyJ (getPropD p.2 "triggers") =
        stringifyJ (getPropD (norm1 (getIdxD (getPropD ver "scenarios") p.1)) "triggers") ∧
      stringifyJ (getPropD p.2 "steps") =
        stringifyJ (getPropD (norm1 (getIdxD (getPropD ver "scenarios") p.1)) "steps")) :
    simpleDiff cur ver = .ok "No differences found." := by
  have hall' : ∀ p ∈ xs.enumFrom 0, notNullish p.2 = true :=
    fun p hp => all_notNullish_mem hall (mem_of_mem_enumFrom hp)
  rw [simpleDiff_pure cur ver xs hc hsc hv hvsc hall']
  have hzero : ∀ p ∈ xs.enumFrom 0, diffScenarioPure ver p.1 p.2 = [] := by
    intro p hp
    obtain ⟨h1, h2, h3⟩ := hagree p hp
    unfold diffScenarioPure
    simp [compareVals, h1, h2, h3]
  have hflat := flatten_of_all_nil (l := (xs.enumFrom 0).map fun p => diffScenarioPure ver p.1 p.2)
    (by intro x hx
        obtain ⟨p, hp, hpx⟩ := List.mem_map.mp hx
        rw [← hpx]
        exact hzero p hp)
  simp [hflat]

/-- Current document for the C7 witness. -/
def exC7cur : JVal :=
  .obj [("scenarios", .arr [.obj [("id", .str "a"), ("name", .str "n"),
    ("triggers", .arr []), ("steps", .arr [])]])]

/-- Previous document for the C7 witness: same name, triggers and steps,
but a different id, an extra icon field, and an extra trailing scenario. -/
def exC7ver : JVal :=
  .obj [("scenarios", .arr [
    .obj [("id", .str "completely-different"), ("icon", .str "i"), ("name", .str "n"),
      ("triggers", .arr []), ("steps", .arr [])],
    .obj [("name", .str "extra trailing scenario")]])]

/-- Witness for C7: despite a different id, an extra icon and an extra
trailing scenario in `previous`, the diff reports no differences. -/
theorem C7_frame_witness : simpleDiff exC7cur exC7ver = .ok "No differences found." :=
  C7_frame exC7cur exC7ver
    [.obj [("id", .str "a"), ("name", .str "n"), ("triggers", .arr []), ("steps", .arr [])]]
    rfl rfl rfl rfl (by decide) (by decide)

/- ===================== Claim C8 ======================================== -/

/-- Document with two scenarios, for the C8 counterexample. -/
def exC8long : JVal :=
  .obj [("scenarios", .arr [
    .obj [("name", .str "a"), ("triggers", .arr []), ("steps", .arr [])],
    .obj [("name", .str "b"), ("triggers", .arr []), ("steps", .arr [])]])]

/-- Document with only the first of those scenarios. -/
def exC8short : JVal :=
  .obj [("scenarios", .arr [
    .obj [("name", .str "a"), ("triggers", .arr []), ("steps", .arr [])]])]

/-- Counterexample to C8 as stated: the two documents differ structurally
on compared fields (the long one has a second scenario), yet
diff(long, short) reports differences at the three scenario-1 paths while
diff(short, long) reports none at all — the differ iterates only
`current.scenarios`, so the direction with the shorter current misses
every path of the extra scenario.  The path sets agree only when the two
scenario lists have equal length. -/
theorem C8_counterexample :
    simpleDiff exC8long exC8short =
      .ok "Scenario 1.name: undefined → \"b\"\nScenario 1.triggers: undefined → []\nScenario 1.steps: undefined → []" ∧
    simpleDiff exC8short exC8long = .ok "No differences found." :=
  ⟨by decide, by decide⟩

/-- The (scenario, field) path on which one comparison of simpleDiff
reports, rather than its rendered line: compareVals with the line replaced
by the bare path. -/
def comparePaths (a b : JVal) (path : String) : List String :=
  if stringifyJ a ≠ stringifyJ b then [path] else []

/-- The paths one simpleDiff iteration reports on. -/
def diffScenarioPaths (version : JVal) (i : Nat) (s : JVal) : List String :=
  let v := norm1 (getIdxD (getPropD version "scenarios") i)
  comparePaths (getPropD s "name") (getPropD v "name") ("Scenario " ++ toString i ++ ".name")
    ++ comparePaths (getPropD s "triggers") (getPropD v "triggers") ("Scenario " ++ toString i ++ ".triggers")
    ++ comparePaths (getPropD s "steps") (getPropD v "steps") ("Scenario " ++ toString i ++ ".steps")

/-- All paths simpleDiff reports on, in order. -/
def diffPaths (current version : JVal) : List String :=
  match getPropD current "scenarios" with
  | .arr xs => ((xs.enumFrom 0).map fun p => diffScenarioPaths version p.1 p.2).flatten
  | _ => []

/-- Reading a property from the `|| {}` normalization gives the same value
as reading it from the raw entry: a falsy primitive reads every property
as undefined, exactly like the empty object. -/
lemma getPropD_norm1 (w : JVal) (k : String) : getPropD (norm1 w) k = getPropD w k := by
  cases w with
  | null => rfl
  | undefined => rfl
  | bool b => cases b <;> rfl
  | num n => simp only [norm1, truthy]; split <;> rfl
  | str s => simp only [norm1, truthy]; split <;> rfl
  | arr l => rfl
  | obj fs => rfl

lemma comparePaths_comm (a b : JVal) (p : String) : comparePaths a b p = comparePaths b a p := by
  by_cases h : stringifyJ a = stringifyJ b
  · simp [comparePaths, h]
  · have h' : stringifyJ b ≠ stringifyJ a := fun hh => h hh.symm
    simp [comparePaths, h, h']

lemma diffPaths_symm_aux (A B : JVal) (xs ys : List JVal)
    (hA : getPropD A "scenarios" = .arr xs) (hB : getPropD B "scenarios" = .arr ys) :
    ∀ (tx : List JVal) (i : Nat) (ty : List JVal), xs.drop i = tx → ys.drop i = ty →
      tx.length = ty.length →
      ((tx.enumFrom i).map fun p => diffScenarioPaths B p.1 p.2).flatten =
      ((ty.enumFrom i).map fun p => diffScenarioPaths A p.1 p.2).flatten := by
  intro tx
  induction tx with
  | nil =>
    intro i ty _ _ hlen
    have hty : ty = [] := List.length_eq_zero.mp hlen.symm
    subst hty; rfl
  | cons s tx' ih =>
    intro i ty hdx hdy hlen
    cases ty with
    | nil => simp at hlen
    | cons v ty' =>
      obtain ⟨hgx, hdx'⟩ := drop_cons_getD JVal.undefined xs i s tx' hdx
      obtain ⟨hgy, hdy'⟩ := drop_cons_getD JVal.undefined ys i v ty' hdy
      have hlen' : tx'.length = ty'.length := by simpa using hlen
      have hrec := ih (i + 1) ty' hdx' hdy' hlen'
      have hx : getIdxD (JVal.arr xs) i = s := by simpa [getIdxD] using hgx
      have hy : getIdxD (JVal.arr ys) i = v := by simpa [getIdxD] using hgy
      have hhead : diffScenarioPaths B i s = diffScenarioPaths A i v := by
        unfold diffScenarioPaths
        rw [hA, hB, hx, hy]
        simp only [getPropD_norm1]
        rw [comparePaths_comm (getPropD s "name"), comparePaths_comm (getPropD s "triggers"),
          comparePaths_comm (getPropD s "steps")]
      simp [List.enumFrom, hhead, hrec]

/-- C8 (amended): diff(A, B) and diff(B, A) report differences on the same
set of (scenario, field) paths PROVIDED A.scenarios and B.scenarios are
sequences of the same length (the original claim fails when the lengths
differ, since only `current`'s indices are iterated); moreover comparePaths
is exactly the path projection of the differ's compareVals, emitting the
path precisely when compareVals emits its rendered change line. -/
theorem C8_path_symmetry (A B : JVal) (xs ys : List JVal)
    (hA : getPropD A "scenarios" = .arr xs) (hB : getPropD B "scenarios" = .arr ys)
    (hlen : xs.length = ys.length) :
    diffPaths A B = diffPaths B A ∧
    ∀ a b p, comparePaths a b p = (compareVals a b p).map fun _ => p := by
  constructor
  · unfold diffPaths
    rw [hA, hB]
    exact diffPaths_symm_aux A B xs ys hA hB xs 0 ys (by simp) (by simp) hlen
  · intro a b p
    by_cases h : stringifyJ a = stringifyJ b
    · simp [comparePaths, compareVals, h]
    · simp [comparePaths, compareVals, h]

/-- Current document for the C8 witness. -/
def exC8wa : JVal :=
  .obj [("scenarios", .arr [.obj [("name", .str "X"), ("triggers", .arr []), ("steps", .arr [])]])]

/-- Previous document for the C8 witness, same length, different name. -/
def exC8wb : JVal :=
  .obj [("scenarios", .arr [.obj [("name", .str "Y"), ("triggers", .arr []), ("steps", .arr [])]])]

/-- Witness for C8 (amended) at a same-length pair. -/
theorem C8_path_symmetry_witness :
    diffPaths exC8wa exC8wb = diffPaths exC8wb exC8wa ∧
    comparePaths (JVal.str "X") (JVal.str "Y") "Scenario 0.name" =
      (compareVals (JVal.str "X") (JVal.str "Y") "Scenario 0.name").map fun _ => "Scenario 0.name" :=
  ⟨(C8_path_symmetry exC8wa exC8wb
      [.obj [("name", .str "X"), ("triggers", .arr []), ("steps", .arr [])]]
      [.obj [("name", .str "Y"), ("triggers", .arr []), ("steps", .arr [])]]
      rfl rfl rfl).1,
   (C8_path_symmetry exC8wa exC8wb
      [.obj [("name", .str "X"), ("triggers", .arr []), ("steps", .arr [])]]
      [.obj [("name", .str "Y"), ("triggers", .arr []), ("steps", .arr [])]]
      rfl rfl rfl).2 _ _ _⟩

/- ===================== Claim C9 ======================================== -/

/-- Current document of the spec's diff example. -/
def exC9cur : JVal :=
  .obj [("scenarios", .arr [.obj [("name", .str "X"), ("triggers", .arr [.num 1]), ("steps", .arr [])]])]

/-- Previous document of the spec's diff example. -/
def exC9prev : JVal :=
  .obj [("scenarios", .arr [.obj [("name", .str "Y"), ("triggers", .arr [.num 1]), ("steps", .arr [])]])]

/-- C9: whenever the serialized forms differ, the change line is formatted
exactly as "path: serialized-previous → serialized-current"; and on the
spec's example pair (names "X" vs "Y", identical triggers [1] and steps
[]), diff returns exactly the single line
`Scenario 0.name: "Y" → "X"`. -/
theorem C9_change_format :
    (∀ a b p, stringifyJ a ≠ stringifyJ b →
      compareVals a b p = [p ++ ": " ++ jsonRender b ++ " → " ++ jsonRender a]) ∧
    simpleDiff exC9cur exC9prev = .ok "Scenario 0.name: \"Y\" → \"X\"" := by
  constructor
  · intro a b p h
    simp [compareVals, h]
  · decide

/-- Witness for C9's formatting clause at the example's name values. -/
theorem C9_change_format_witness :
    stringifyJ (JVal.str "X") ≠ stringifyJ (JVal.str "Y") ∧
    compareVals (JVal.str "X") (JVal.str "Y") "Scenario 0.name" =
      ["Scenario 0.name" ++ ": " ++ jsonRender (JVal.str "Y") ++ " → " ++ jsonRender (JVal.str "X")] :=
  ⟨by decide, C9_change_format.1 _ _ _ (by decide)⟩

/- ===================== Claim C1 ======================================== -/

/-- Document whose first scenario has a trigger entry lacking the
`trigger` key: the type check degrades to an error entry, but the
subsequent `'value' in t.trigger` evaluates `in` on undefined and throws. -/
def exC1val : JVal :=
  .obj [("scenarios", .arr [.obj [("id", .str "a"), ("name", .str "n"),
    ("triggers", .arr [.obj []]), ("steps", .arr [])]])]

/-- Parseable document without a `scenarios` key, passed to the differ:
`current.scenarios.forEach` reads forEach of undefined and throws. -/
def exC1dif : JVal := .obj [("other", .str "x")]

/-- Counterexample to C1 as stated: both engines can throw on
malformed-but-parseable input — the validator on a trigger entry lacking
the `trigger` key (TypeError from `'value' in undefined`, src/main.ts line
144), the differ on a document whose `scenarios` key is absent (TypeError
from `undefined.forEach`, line 238). -/
theorem C1_throw_counterexample :
    isThrow (validate exC1val) = true ∧ isThrow (simpleDiff exC1dif exC1dif) = true :=
  ⟨by decide, by decide⟩

/-- Whether a value is an object or an array — the values the `in`
operator accepts without throwing. -/
def isObjOrArr : JVal → Bool
  | .obj _ => true
  | .arr _ => true
  | _ => false

/-- Condition under which the validator's trigger loop body cannot throw:
the entry is non-nullish and its `trigger` field is an object or array. -/
def triggerEntryOk (t : JVal) : Bool := notNullish t && isObjOrArr (getPropD t "trigger")

/-- Condition under which one scenario iteration of the validator cannot
throw: the scenario is non-nullish, every entry of an array-valued
`triggers` satisfies triggerEntryOk, and every entry of an array-valued
`steps` is non-nullish. -/
def scenarioEntryOk (s : JVal) : Bool :=
  notNullish s &&
  (match getPropD s "triggers" with
   | .arr ts => ts.all triggerEntryOk
   | _ => true) &&
  (match getPropD s "steps" with
   | .arr sts => sts.all notNullish
   | _ => true)

/-- Condition under which validate cannot throw. -/
def validateInputOk (d : JVal) : Bool :=
  match optChainProp d "scenarios" with
  | .arr xs => xs.all scenarioEntryOk
  | _ => true

/-- Condition under which simpleDiff cannot throw: both documents
non-nullish, current.scenarios an array of non-nullish entries, and
version.scenarios non-nullish. -/
def diffInputOk (current version : JVal) : Bool :=
  notNullish current && notNullish version &&
  (match getPropD current "scenarios" with
   | .arr xs => xs.all notNullish
   | _ => false) &&
  notNullish (getPropD version "scenarios")

lemma notNullish_of_truthy_optChain {v : JVal} (k : String)
    (h : truthy (optChainProp v k) = true) : notNullish v = true := by
  cases v <;> simp_all [optChainProp, nullish, truthy, notNullish]

lemma validateTrigger_ok (i j : Nat) (t : JVal) (h : triggerEntryOk t = true) :
    ∃ es, validateTrigger i j t = .ok es := by
  unfold triggerEntryOk at h
  rw [Bool.and_eq_true] at h
  obtain ⟨hnn, hoa⟩ := h
  unfold validateTrigger
  rw [getProp_ok _ hnn]
  simp only [okBind]
  have hin : ∃ bv, jIn "value" (getPropD t "trigger") = .ok bv := by
    cases hq : getPropD t "trigger" <;> rw [hq] at hoa <;>
      first
        | exact ⟨_, rfl⟩
        | exact Bool.noConfusion hoa
  obtain ⟨bv, hbv⟩ := hin
  have hnn2 : notNullish (getPropD t "trigger") = true := by
    cases hq : getPropD t "trigger" <;> rw [hq] at hoa <;>
      first
        | rfl
        | exact Bool.noConfusion hoa
  by_cases hty : truthy (optChainProp (getPropD t "trigger") "type") = true
  · rw [hty]
    simp only [Bool.not_true, Bool.false_eq_true, if_false, okBind]
    rw [getProp_ok _ hnn2]
    simp only [okBind]
    rw [hbv]
    simp only [okBind]
    exact ⟨_, rfl⟩
  · rw [Bool.not_eq_true] at hty
    rw [hty]
    simp only [Bool.not_false, if_true, okBind]
    rw [hbv]
    simp only [okBind]
    exact ⟨_, rfl⟩

lemma validateTriggers_ok (i : Nat) :
    ∀ (ts : List JVal) (j : Nat), ts.all triggerEntryOk = true →
      ∃ es, validateTriggers i j ts = .ok es := by
  intro ts
  induction ts with
  | nil => intro j _; exact ⟨[], rfl⟩
  | cons t rest ih =>
    intro j h
    rw [List.all_cons, Bool.and_eq_true] at h
    obtain ⟨ht, hrest⟩ := h
    obtain ⟨es, hes⟩ := validateTrigger_ok i j t ht
    obtain ⟨more, hmore⟩ := ih (j + 1) hrest
    refine ⟨es ++ more, ?_⟩
    unfold validateTriggers
    rw [hes]
    simp only [okBind]
    rw [hmore]
    rfl

lemma scenarioTriggerErrors_ok (i : Nat) (s : JVal) (hnn : notNullish s = true)
    (h : (match getPropD s "triggers" with
          | JVal.arr ts => ts.all triggerEntryOk
          | _ => true) = true) :
    ∃ es, scenarioTriggerErrors i s = .ok es := by
  unfold scenarioTriggerErrors
  rw [getProp_ok _ hnn]
  simp only [okBind]
  cases hq : getPropD s "triggers" <;> rw [hq] at h <;>
    first
      | exact validateTriggers_ok i _ 0 h
      | exact ⟨_, rfl⟩

lemma validateStep_ok (i k : Nat) (st : JVal) (hnn : notNullish st = true) :
    ∃ es, validateStep i k st = .ok es := by
  unfold validateStep
  rw [getProp_ok _ hnn]
  simp only [okBind]
  by_cases h1 : truthy (getPropD st "type") = true
  · rw [h1]
    simp only [Bool.not_true, Bool.false_eq_true, if_false, okBind]
    rw [getProp_ok _ hnn]
    simp only [okBind]
    by_cases h2 : truthy (optChainProp (getPropD st "parameters") "items") = true
    · rw [h2]
      simp only [Bool.not_true, Bool.false_eq_true, if_false, okBind]
      rw [getProp_ok _ (notNullish_of_truthy_optChain "items" h2)]
      simp only [okBind]
      exact ⟨_, rfl⟩
    · rw [Bool.not_eq_true] at h2
      rw [h2]
      simp only [Bool.not_false, if_true]
      exact ⟨_, rfl⟩
  · rw [Bool.not_eq_true] at h1
    rw [h1]
    simp only [Bool.not_false, if_true]
    exact ⟨_, rfl⟩

lemma validateSteps_ok (i : Nat) :
    ∀ (sts : List JVal) (k : Nat), sts.all notNullish = true →
      ∃ es, validateSteps i k sts = .ok es := by
  intro sts
  induction sts with
  | nil => intro k _; exact ⟨[], rfl⟩
  | cons st rest ih =>
    intro k h
    rw [List.all_cons, Bool.and_eq_true] at h
    obtain ⟨hst, hrest⟩ := h
    obtain ⟨es, hes⟩ := validateStep_ok i k st hst
    obtain ⟨more, hmore⟩ := ih (k + 1) hrest
    refine ⟨es ++ more, ?_⟩
    unfold validateSteps
    rw [hes]
    simp only [okBind]
    rw [hmore]
    rfl

lemma scenarioStepErrors_ok (i : Nat) (s : JVal) (hnn : notNullish s = true)
    (h : (match getPropD s "steps" with
          | JVal.arr sts => sts.all notNullish
          | _ => true) = true) :
    ∃ es, scenarioStepErrors i s = .ok es := by
  unfold scenarioStepErrors
  rw [getProp_ok _ hnn]
  simp only [okBind]
  cases hq : getPropD s "steps" <;> rw [hq] at h <;>
    first
      | exact validateSteps_ok i _ 0 h
      | exact ⟨_, rfl⟩

lemma scenarioIdNameErrors_ok (i : Nat) (s : JVal) (hnn : notNullish s = true) :
    ∃ es, scenarioIdNameErrors i s = .ok es := by
  unfold scenarioIdNameErrors
  rw [getProp_ok _ hnn, getProp_ok _ hnn]
  simp only [okBind]
  exact ⟨_, rfl⟩

lemma validateScenario_ok (i : Nat) (s : JVal) (h : scenarioEntryOk s = true) :
    ∃ es, validateScenario i s = .ok es := by
  unfold scenarioEntryOk at h
  rw [Bool.and_eq_true, Bool.and_eq_true] at h
  obtain ⟨⟨hnn, htr⟩, hst⟩ := h
  obtain ⟨a, ha⟩ := scenarioIdNameErrors_ok i s hnn
  obtain ⟨b, hb⟩ := scenarioTriggerErrors_ok i s hnn htr
  obtain ⟨c, hc⟩ := scenarioStepErrors_ok i s hnn hst
  refine ⟨a ++ b ++ c, ?_⟩
  unfold validateScenario
  rw [ha]
  simp only [okBind]
  rw [hb]
  simp only [okBind]
  rw [hc]
  rfl

lemma validateScenarios_ok :
    ∀ (xs : List JVal) (i : Nat), xs.all scenarioEntryOk = true →
      ∃ es, validateScenarios i xs = .ok es := by
  intro xs
  induction xs with
  | nil => intro i _; exact ⟨[], rfl⟩
  | cons s rest ih =>
    intro i h
    rw [List.all_cons, Bool.and_eq_true] at h
    obtain ⟨hs, hrest⟩ := h
    obtain ⟨es, hes⟩ := validateScenario_ok i s hs
    obtain ⟨more, hmore⟩ := ih (i + 1) hrest
    refine ⟨es ++ more, ?_⟩
    unfold validateScenarios
    rw [hes]
    simp only [okBind]
    rw [hmore]
    rfl

lemma validate_ok_of_inputOk (d : JVal) (h : validateInputOk d = true) :
    ∃ es, validate d = .ok es := by
  unfold validateInputOk at h
  unfold validate
  cases hq : optChainProp d "scenarios" <;> rw [hq] at h <;>
    first
      | exact validateScenarios_ok _ 0 h
      | exact ⟨_, rfl⟩

lemma simpleDiff_ok_of_inputOk (current version : JVal)
    (h : diffInputOk current version = true) :
    ∃ out, simpleDiff current version = .ok out := by
  unfold diffInputOk at h
  rw [Bool.and_eq_true, Bool.and_eq_true, Bool.and_eq_true] at h
  obtain ⟨⟨⟨hc, hv⟩, hm⟩, hvsc⟩ := h
  obtain ⟨xs, hsc⟩ : ∃ xs, getPropD current "scenarios" = JVal.arr xs := by
    cases hq : getPropD current "scenarios" <;> rw [hq] at hm <;>
      first
        | exact ⟨_, rfl⟩
        | exact Bool.noConfusion hm
  rw [hsc] at hm
  have hall : ∀ p ∈ xs.enumFrom 0, notNullish p.2 = true :=
    fun p hp => all_notNullish_mem hm (mem_of_mem_enumFrom hp)
  exact ⟨_, simpleDiff_pure current version xs hc hsc hv hvsc hall⟩

/-- C1 (amended): the SchemaValidator and the StructuralDiffer CAN throw
on some malformed-but-parseable inputs (see the counterexample: a trigger
entry without a `trigger` mapping, or a differ argument without a
`scenarios` sequence); they return normally with descriptive entries on
every input in which each trigger entry carries an object-or-array
`trigger` field, scenarios and steps are non-nullish, and — for the differ
— both documents are non-nullish with current.scenarios an array of
non-nullish entries and version.scenarios non-nullish. -/
theorem C1_no_throw (d current version : JVal) :
    (validateInputOk d = true → isThrow (validate d) = false) ∧
    (diffInputOk current version = true → isThrow (simpleDiff current version) = false) := by
  constructor
  · intro h
    obtain ⟨es, hes⟩ := validate_ok_of_inputOk d h
    rw [hes]
    rfl
  · intro h
    obtain ⟨out, hout⟩ := simpleDiff_ok_of_inputOk current version h
    rw [hout]
    rfl

/-- Well-formed document used by the C1 witness. -/
def exC1ok : JVal :=
  .obj [("scenarios", .arr [.obj [("id", .str "a"), ("name", .str "n"),
    ("triggers", .arr [.obj [("trigger", .obj [("type", .str "t"), ("value", JVal.null)])]]),
    ("steps", .arr [.obj [("type", .str "s"), ("parameters", .obj [("items", .arr [])])]])]])]

/-- Witness for C1 (amended): a document meeting the structure conditions
is validated and diffed without a throw. -/
theorem C1_no_throw_witness :
    validateInputOk exC1ok = true ∧ diffInputOk exC1ok exC1ok = true ∧
    isThrow (validate exC1ok) = false ∧ isThrow (simpleDiff exC1ok exC1ok) = false :=
  ⟨by decide, by decide, (C1_no_throw exC1ok exC1ok exC1ok).1 (by decide),
   (C1_no_throw exC1ok exC1ok exC1ok).2 (by decide)⟩

/- ===================== Claim C10 ======================================= -/

/-- Parseable document with a non-empty `scenarios` sequence whose single
scenario lacks the `triggers` key. -/
def exC10 : JVal := .obj [("scenarios", .arr [.obj [("name", .str "Night")]])]

/-- C10: the simulation trace formatter is partial — on exC10 (a parseable
document with a non-empty scenarios sequence whose scenario lacks
`triggers`) it throws (`s.triggers.forEach` on undefined), while the
validator on the very same document degrades to error entries and returns
normally; the scenarios field really is a one-element sequence. -/
theorem C10_simulate_partial :
    isThrow (simulate exC10) = true ∧ isThrow (validate exC10) = false ∧
    optChainLength (optChainProp exC10 "scenarios") = .num 1 :=
  ⟨by decide, by decide, rfl⟩

end IoTManager
